import Mathlib

/-!
Verification of the venusc lexical front end: a shallow embedding of the
token-kind taxonomy (`tokens/kind.py`, `tokens/category.py`,
`tokens/infix.py`, `tokens/lib.py`) and of the scanning engine
(`lexer/__init__.py`, `lexer/utils.py`), together with theorems settling
the specification's claims about them.

Python strings are modelled as `List Char`; the scanner's two cursor
offsets `start` and `current` are threaded explicitly.  The `while` loops
of the scanner are written with a structural fuel parameter; every entry
point supplies `source.length + 1` fuel, which is always sufficient
because each loop iteration advances `current` by one (this is proved
where the theorems need it).
-/

namespace Venusc

/-- `infix.py`: associativity of an infix operator. -/
inductive Associativity where
  | LEFT
  | RIGHT
deriving DecidableEq, Repr

/-- Modelled from the spec: the keyword *role* enumeration
(statement-starter, statement-conjunctive, expression-starter,
expression-conjunctive) that `tokens/kind.py` imports as `KeywordKind`;
its defining module is not among the provided sources. -/
inductive KeywordKind where
  | STATEMENT_STARTER
  | STATEMENT_CONJUNCTIVE
  | EXPRESSION_STARTER
  | EXPRESSION_CONJUNCTIVE
deriving DecidableEq, Repr

/-- `type/kind.py`: the primitive type kinds. -/
inductive PrimitiveKind where
  | BOOLEAN
  | INTEGER
  | NATURAL
  | NEVER
  | STRING
  | UNIT
deriving DecidableEq, Repr

/-- `tokens/category.py`: the token kind categories, each carrying its
metadata fields (with the `attrs` defaults of the source filled in at the
use sites in `TokenKind.value`). -/
inductive TokenKindCategory where
  | Atom (is_identifier_alike : Bool) (lexeme : String)
  | Grouper (is_identifier_alike : Bool) (lexeme : String)
  | Keyword (is_identifier_alike : Bool) (lexeme : String) (kind : KeywordKind) (leading : Bool)
  | Literal (is_identifier_alike : Bool) (kind : PrimitiveKind) (lexeme : String)
  | Miscellaneous (is_identifier_alike : Bool) (lexeme : String)
  | Operator (is_identifier_alike : Bool) (lexeme : String) (associativity : Associativity)
      (precedence : Nat)
  | Punctuation (is_identifier_alike : Bool) (lexeme : String)
  | Relation (is_identifier_alike : Bool) (lexeme : String)
deriving DecidableEq, Repr

/-- The `is_identifier_alike` flag common to every category
(`AbstractTokenKindCategory.is_identifier_alike`). -/
def TokenKindCategory.is_identifier_alike : TokenKindCategory → Bool
  | .Atom a _ | .Grouper a _ | .Keyword a _ _ _ | .Literal a _ _
  | .Miscellaneous a _ | .Operator a _ _ _ | .Punctuation a _ | .Relation a _ => a

/-- The `lexeme` field common to every category. -/
def TokenKindCategory.lexeme : TokenKindCategory → String
  | .Atom _ l | .Grouper _ l | .Keyword _ l _ _ | .Literal _ _ l
  | .Miscellaneous _ l | .Operator _ l _ _ | .Punctuation _ l | .Relation _ l => l

/-- `tokens/kind.py`: the `TokenKind` enumeration, in source order. -/
inductive TokenKind where
  | IDENTIFIER
  | LEFT_BRACKET
  | LEFT_PAREN
  | RIGHT_BRACKET
  | RIGHT_PAREN
  | AND
  | CASE
  | DISCARD
  | ELSE
  | END
  | FIX
  | IF
  | LET
  | MATCH
  | OR
  | PROOF
  | THEN
  | USE
  | WHERE
  | NATURAL
  | STRING
  | UNIT
  | EOF
  | CARET
  | COLON_EQUAL
  | MINUS
  | MODULO
  | PLUS
  | SLASH
  | STAR
  | COLON
  | COMMA
  | PERCENT
  | PERIOD
  | RIGHT_ARROW
  | SEMICOLON
  | EQUAL
  | GREATER
  | GREATER_EQUAL
  | IS
  | LESS
  | LESS_EQUAL
deriving DecidableEq, Repr

/-- The category value attached to each enum member in `tokens/kind.py`,
with the source's defaults made explicit: `Keyword` defaults
`is_identifier_alike=True, leading=True`; `Operator` defaults
`associativity=LEFT, precedence=1, is_identifier_alike=False`; `Atom`,
`Literal`, `Miscellaneous` carry their fixed placeholder lexemes. -/
def TokenKind.value : TokenKind → TokenKindCategory
  | .IDENTIFIER => .Atom false "<atom>"
  | .LEFT_BRACKET => .Grouper false "["
  | .LEFT_PAREN => .Grouper false "("
  | .RIGHT_BRACKET => .Grouper false "]"
  | .RIGHT_PAREN => .Grouper false ")"
  | .AND => .Keyword true "and" .EXPRESSION_CONJUNCTIVE true
  | .CASE => .Keyword true "case" .EXPRESSION_CONJUNCTIVE true
  | .DISCARD => .Keyword true "discard" .EXPRESSION_STARTER true
  | .ELSE => .Keyword true "else" .EXPRESSION_CONJUNCTIVE true
  | .END => .Keyword true "end" .EXPRESSION_CONJUNCTIVE true
  | .FIX => .Keyword true "fix" .STATEMENT_STARTER true
  | .IF => .Keyword true "if" .EXPRESSION_STARTER true
  | .LET => .Keyword true "let" .STATEMENT_STARTER true
  | .MATCH => .Keyword true "match" .EXPRESSION_STARTER true
  | .OR => .Keyword true "or" .EXPRESSION_CONJUNCTIVE true
  | .PROOF => .Keyword true "proof" .STATEMENT_STARTER true
  | .THEN => .Keyword true "then" .EXPRESSION_CONJUNCTIVE true
  | .USE => .Keyword true "use" .STATEMENT_STARTER true
  | .WHERE => .Keyword true "where" .STATEMENT_CONJUNCTIVE true
  | .NATURAL => .Literal false .NATURAL "<literal>"
  | .STRING => .Literal false .STRING "<literal>"
  | .UNIT => .Literal false .UNIT "<literal>"
  | .EOF => .Miscellaneous false "<misc>"
  | .CARET => .Operator false "^" .RIGHT 5
  | .COLON_EQUAL => .Operator false ":=" .RIGHT 0
  | .MINUS => .Operator false "-" .LEFT 3
  | .MODULO => .Operator true "mod" .LEFT 4
  | .PLUS => .Operator false "+" .LEFT 3
  | .SLASH => .Operator false "/" .LEFT 4
  | .STAR => .Operator false "*" .LEFT 4
  | .COLON => .Punctuation false ":"
  | .COMMA => .Punctuation false ","
  | .PERCENT => .Punctuation false "%"
  | .PERIOD => .Punctuation false "."
  | .RIGHT_ARROW => .Punctuation false "->"
  | .SEMICOLON => .Punctuation false ";"
  | .EQUAL => .Relation false "="
  | .GREATER => .Relation false ">"
  | .GREATER_EQUAL => .Relation false ">="
  | .IS => .Relation true "is"
  | .LESS => .Relation false "<"
  | .LESS_EQUAL => .Relation false "<="

/-- The members of `TokenKind`, in the enumeration (iteration) order of
`tokens/kind.py`. -/
def allTokenKinds : List TokenKind :=
  [.IDENTIFIER, .LEFT_BRACKET, .LEFT_PAREN, .RIGHT_BRACKET, .RIGHT_PAREN,
   .AND, .CASE, .DISCARD, .ELSE, .END, .FIX, .IF, .LET, .MATCH, .OR,
   .PROOF, .THEN, .USE, .WHERE, .NATURAL, .STRING, .UNIT, .EOF, .CARET,
   .COLON_EQUAL, .MINUS, .MODULO, .PLUS, .SLASH, .STAR, .COLON, .COMMA,
   .PERCENT, .PERIOD, .RIGHT_ARROW, .SEMICOLON, .EQUAL, .GREATER,
   .GREATER_EQUAL, .IS, .LESS, .LESS_EQUAL]

/-- `tokens/kind.py`: `IDENTIFIER_ALIKE_MAPPING`, the association from
lexeme to kind over exactly the kinds flagged identifier-alike, in
enumeration order (the dict comprehension over `TokenKind`). -/
def IDENTIFIER_ALIKE_MAPPING : List (String × TokenKind) :=
  allTokenKinds.filterMap fun kind =>
    if kind.value.is_identifier_alike then some (kind.value.lexeme, kind) else none

/-- Modelled from the spec: the scanner looks its munched lexeme up in
"the identifier-alike table" (§4.1, §4.2).  The lexer source refers to
this table as `tokens.KEYWORD_MAPPING`; the `tokens` package `__init__`
that re-exports `IDENTIFIER_ALIKE_MAPPING` under that name is not among
the provided sources. -/
def KEYWORD_MAPPING : List (String × TokenKind) := IDENTIFIER_ALIKE_MAPPING

/-- `dict.get(lexeme, TokenKind.IDENTIFIER)` on `KEYWORD_MAPPING`
(`Lexer.scan_identifier`): first matching key wins; a miss yields the
plain identifier kind. -/
def KEYWORD_MAPPING_get (lexeme : List Char) : TokenKind :=
  match KEYWORD_MAPPING.find? (fun p => p.1.toList == lexeme) with
  | some p => p.2
  | none => TokenKind.IDENTIFIER

/-- `tokens/lib.py`: the token record. -/
structure Token where
  kind : TokenKind
  lexeme : List Char
  offset : Nat
deriving DecidableEq, Repr

/-- `Token.span`: `(offset, offset + len(lexeme))`. -/
def Token.span (t : Token) : Nat × Nat := (t.offset, t.offset + t.lexeme.length)

/-- `error/__init__.py`: the lexical (`SyntaxError`) branch of the error
tree; each error carries its span, plus the subclass payloads. -/
inductive SynError where
  | InvalidStringEscapeSequenceError (span : Nat × Nat) (escape_sequence : List Char)
  | UnclosedStringError (span : Nat × Nat)
  | UnexpectedSpecialCharacterInStringError (span : Nat × Nat) (special_character : Char)
  | UnrecognizedCharacterError (span : Nat × Nat) (unrecognized_character : Char)
deriving DecidableEq, Repr

/-- The `result` library's `Result` value used throughout the lexer:
`Ok` or `Err`. -/
inductive Result (T : Type) (E : Type) where
  | Ok (value : T)
  | Err (error : E)
deriving DecidableEq, Repr

/-- `lexer/utils.py` `is_identifier`: `_`, an ASCII letter, or (when not
the first character) an ASCII decimal digit. -/
def is_identifier (char : Char) (first_char : Bool := false) : Bool :=
  char == '_'
    || (decide ('A' ≤ char) && decide (char ≤ 'Z'))
    || (decide ('a' ≤ char) && decide (char ≤ 'z'))
    || (decide ('0' ≤ char) && decide (char ≤ '9') && !first_char)

/-- The code-point ranges of Unicode general category Nd (decimal digits),
which is exactly the set of single characters accepted by Python's
`str.isdecimal` (used by `Lexer.scan_natural` and the digit guard of
`Lexer.scan_token`). -/
def decimalDigitRanges : List (Nat × Nat) :=
  [(0x30, 0x39), (0x660, 0x669), (0x6F0, 0x6F9), (0x7C0, 0x7C9),
   (0x966, 0x96F), (0x9E6, 0x9EF), (0xA66, 0xA6F), (0xAE6, 0xAEF),
   (0xB66, 0xB6F), (0xBE6, 0xBEF), (0xC66, 0xC6F), (0xCE6, 0xCEF),
   (0xD66, 0xD6F), (0xDE6, 0xDEF), (0xE50, 0xE59), (0xED0, 0xED9),
   (0xF20, 0xF29), (0x1040, 0x1049), (0x1090, 0x1099), (0x17E0, 0x17E9),
   (0x1810, 0x1819), (0x1946, 0x194F), (0x19D0, 0x19D9), (0x1A80, 0x1A89),
   (0x1A90, 0x1A99), (0x1B50, 0x1B59), (0x1BB0, 0x1BB9), (0x1C40, 0x1C49),
   (0x1C50, 0x1C59), (0xA620, 0xA629), (0xA8D0, 0xA8D9), (0xA900, 0xA909),
   (0xA9D0, 0xA9D9), (0xA9F0, 0xA9F9), (0xAA50, 0xAA59), (0xABF0, 0xABF9),
   (0xFF10, 0xFF19), (0x104A0, 0x104A9), (0x10D30, 0x10D39),
   (0x11066, 0x1106F), (0x110F0, 0x110F9), (0x11136, 0x1113F),
   (0x111D0, 0x111D9), (0x112F0, 0x112F9), (0x11450, 0x11459),
   (0x114D0, 0x114D9), (0x11650, 0x11659), (0x116C0, 0x116C9),
   (0x11730, 0x11739), (0x118E0, 0x118E9), (0x11950, 0x11959),
   (0x11C50, 0x11C59), (0x11D50, 0x11D59), (0x11DA0, 0x11DA9),
   (0x11F50, 0x11F59), (0x16A60, 0x16A69), (0x16AC0, 0x16AC9),
   (0x16B50, 0x16B59), (0x1D7CE, 0x1D7FF), (0x1E140, 0x1E149),
   (0x1E2F0, 0x1E2F9), (0x1E4F0, 0x1E4F9), (0x1E950, 0x1E959),
   (0x1FBF0, 0x1FBF9)]

/-- Python's `str.isdecimal` on a single character: membership in Unicode
general category Nd. -/
def isdecimal (char : Char) : Bool :=
  decimalDigitRanges.any fun p => Nat.ble p.1 char.toNat && Nat.ble char.toNat p.2

/-- `STRING_TERMINATORS` from `lexer/__init__.py`. -/
def STRING_TERMINATORS : List Char := ['"', '\n']

/-- `Lexer.is_at_end`: `current >= len(source)`. -/
def is_at_end (src : List Char) (cur : Nat) : Bool :=
  decide (src.length ≤ cur)

/-- `Lexer.peek`: the character at `current`, or the null character
sentinel at end of input. -/
def peek (src : List Char) (cur : Nat) : Char :=
  if is_at_end src cur then '\x00' else src.getD cur '\x00'

/-- `Lexer.get_lexeme`: `source[start:current]` (Python slicing clamps
out-of-range bounds). -/
def get_lexeme (src : List Char) (start cur : Nat) : List Char :=
  (src.drop start).take (cur - start)

/-- `Lexer.get_span`: `(start, current)`. -/
def get_span (start cur : Nat) : Nat × Nat := (start, cur)

/-- `Lexer.scan_identifier`: maximal munch while `is_identifier(peek())`,
then look the lexeme up in the keyword mapping with `IDENTIFIER` as the
default.  Returns the kind together with the final `current`.  The fuel
argument bounds the loop; with `current`-many characters left it is never
exhausted, and when it is, the function returns exactly the loop-exit
value for the reached position. -/
def scan_identifier (src : List Char) (start : Nat) : Nat → Nat → TokenKind × Nat
  | 0, cur => (KEYWORD_MAPPING_get (get_lexeme src start cur), cur)
  | fuel + 1, cur =>
    if is_identifier (peek src cur) then scan_identifier src start fuel (cur + 1)
    else (KEYWORD_MAPPING_get (get_lexeme src start cur), cur)

/-- `Lexer.scan_natural`: maximal munch while `peek().isdecimal()`;
always yields the `NATURAL` kind. -/
def scan_natural (src : List Char) : Nat → Nat → TokenKind × Nat
  | 0, cur => (TokenKind.NATURAL, cur)
  | fuel + 1, cur =>
    if isdecimal (peek src cur) then scan_natural src fuel (cur + 1)
    else (TokenKind.NATURAL, cur)

/-- `Lexer.scan_string`: munch until end of input or a terminator; fail
with `UnclosedStringError` over `(start, current)` when stopped by end of
input or a newline, otherwise consume the closing quote and yield
`STRING`.  Entered with the opening quote already consumed. -/
def scan_string (src : List Char) (start : Nat) :
    Nat → Nat → Result TokenKind SynError × Nat
  | 0, cur => (.Err (.UnclosedStringError (get_span start cur)), cur)
  | fuel + 1, cur =>
    if !is_at_end src cur && !STRING_TERMINATORS.contains (peek src cur) then
      scan_string src start fuel (cur + 1)
    else if is_at_end src cur || peek src cur == '\n' then
      (.Err (.UnclosedStringError (get_span start cur)), cur)
    else
      (.Ok TokenKind.STRING, cur + 1)

/-- The `*- Relations -*` section of the `scan_token` match, together
with its fall-through arm: `=`, `>`/`>=`, `<`/`<=`, and otherwise the
`UnrecognizedCharacterError` over `get_span` carrying the consumed
character.  `cur` is the position after the consumed character `c`. -/
def scan_token_relations (src : List Char) (start cur : Nat) (c : Char) :
    Result TokenKind SynError × Nat × Nat :=
  if c == '=' then (.Ok .EQUAL, start, cur)
  else if c == '>' then
    if peek src cur == '=' then (.Ok .GREATER_EQUAL, start, cur + 1)
    else (.Ok .GREATER, start, cur)
  else if c == '<' then
    if peek src cur == '=' then (.Ok .LESS_EQUAL, start, cur + 1)
    else (.Ok .LESS, start, cur)
  else (.Err (.UnrecognizedCharacterError (get_span start cur) c), start, cur)

/-- The `*- Punctuation -*` section of the `scan_token` match: `:`/`:=`,
`,`, `%`, `.`, `;`; otherwise fall through to the relations section. -/
def scan_token_punctuation (src : List Char) (start cur : Nat) (c : Char) :
    Result TokenKind SynError × Nat × Nat :=
  if c == ':' then
    if peek src cur == '=' then (.Ok .COLON_EQUAL, start, cur + 1)
    else (.Ok .COLON, start, cur)
  else if c == ',' then (.Ok .COMMA, start, cur)
  else if c == '%' then (.Ok .PERCENT, start, cur)
  else if c == '.' then (.Ok .PERIOD, start, cur)
  else if c == ';' then (.Ok .SEMICOLON, start, cur)
  else scan_token_relations src start cur c

/-- The `*- Operators -*` section of the `scan_token` match: `^`,
`-`/`->`, `+`, `/`, `*`; otherwise fall through to punctuation. -/
def scan_token_operators (src : List Char) (start cur : Nat) (c : Char) :
    Result TokenKind SynError × Nat × Nat :=
  if c == '^' then (.Ok .CARET, start, cur)
  else if c == '-' then
    if peek src cur == '>' then (.Ok .RIGHT_ARROW, start, cur + 1)
    else (.Ok .MINUS, start, cur)
  else if c == '+' then (.Ok .PLUS, start, cur)
  else if c == '/' then (.Ok .SLASH, start, cur)
  else if c == '*' then (.Ok .STAR, start, cur)
  else scan_token_punctuation src start cur c

/-- The `*- Literals -*` section of the `scan_token` match: a decimal
digit enters `scan_natural`, `"` enters `scan_string` (whose error is
propagated unchanged); otherwise fall through to operators. -/
def scan_token_literals (src : List Char) (fuel start cur : Nat) (c : Char) :
    Result TokenKind SynError × Nat × Nat :=
  if isdecimal c then
    let scanned := scan_natural src fuel cur
    (.Ok scanned.1, start, scanned.2)
  else if c == '"' then
    match scan_string src start fuel cur with
    | (.Err e, cur') => (.Err e, start, cur')
    | (.Ok kind, cur') => (.Ok kind, start, cur')
  else scan_token_operators src start cur c

/-- The `*- Groupers -*` section of the `scan_token` match: `[`, `(`
(with one-character lookahead for the unit literal `()`), `]`, `)`;
otherwise fall through to literals. -/
def scan_token_groupers (src : List Char) (fuel start cur : Nat) (c : Char) :
    Result TokenKind SynError × Nat × Nat :=
  if c == '[' then (.Ok .LEFT_BRACKET, start, cur)
  else if c == '(' then
    if peek src cur == ')' then (.Ok .UNIT, start, cur + 1)
    else (.Ok .LEFT_PAREN, start, cur)
  else if c == ']' then (.Ok .RIGHT_BRACKET, start, cur)
  else if c == ')' then (.Ok .RIGHT_PAREN, start, cur)
  else scan_token_literals src fuel start cur c

/-- `Lexer.scan_token`: consume one character and dispatch, looping on
whitespace (which also resets `start`).  The single source-level `match`
is written here as a chain through the per-section helpers above, in the
source's order: end-of-input sentinel, whitespace, atoms (identifiers),
groupers, literals, operators, punctuation, relations, fall-through
error.  Returns the kind-or-error together with the final `start` and
`current`. -/
def scan_token (src : List Char) :
    Nat → Nat → Nat → Result TokenKind SynError × Nat × Nat
  | 0, start, cur => (.Ok TokenKind.EOF, start, cur)
  | fuel + 1, start, cur =>
    let c := peek src cur
    let cur := cur + 1
    if c == '\x00' then (.Ok .EOF, start, cur)
    else if c == ' ' || c == '\r' || c == '\t' || c == '\n' then
      scan_token src fuel cur cur
    else if is_identifier c true then
      let scanned := scan_identifier src start fuel cur
      (.Ok scanned.1, start, scanned.2)
    else scan_token_groupers src fuel start cur c

/-- `Lexer.build_token`: `Token(kind, get_lexeme(), start)`. -/
def build_token (src : List Char) (start cur : Nat) (kind : TokenKind) : Token :=
  ⟨kind, get_lexeme src start cur, start⟩

/-- The `while not is_at_end()` loop of `Lexer.lex`: each iteration calls
`reset_start` (hence `scan_token` is entered with `start = current`),
aborts on the first error, otherwise appends the built token; after the
loop, `reset_start` followed by appending the `EOF` token. -/
def lexLoop (src : List Char) : Nat → Nat → List Token → Result (List Token) SynError
  | 0, _, acc => .Ok acc
  | fuel + 1, cur, acc =>
    if is_at_end src cur then
      .Ok (acc ++ [build_token src cur cur .EOF])
    else
      match scan_token src (src.length + 1) cur cur with
      | (.Err e, _, _) => .Err e
      | (.Ok kind, start', cur') =>
        lexLoop src fuel cur' (acc ++ [build_token src start' cur' kind])

/-- `Lexer.lex` on a source string. -/
def lex (src : List Char) : Result (List Token) SynError :=
  lexLoop src (src.length + 1) 0 []

/-- The cursor positions `lex` hands to `scan_token`: either the start of
the source, or the end position of an earlier successful `scan_token`
(entered, after `reset_start`, with `start = current`). -/
inductive ScanReaches (src : List Char) : Nat → Nat → Prop where
  | refl (cur : Nat) : ScanReaches src cur cur
  | step (cur cur'' : Nat) (kind : TokenKind) (start' cur' : Nat)
      (hne : is_at_end src cur = false)
      (hscan : scan_token src (src.length + 1) cur cur = (.Ok kind, start', cur'))
      (htail : ScanReaches src cur' cur'') : ScanReaches src cur cur''

/-- The single-character classes tested, in order, by the dispatch of
`scan_token` before its fall-through "unrecognized character" arm:
whitespace, identifier-start, groupers, decimal digits, the double quote,
and the listed operator, punctuation and relation characters. -/
def dispatch_recognizes (c : Char) : Bool :=
  (c == ' ' || c == '\r' || c == '\t' || c == '\n')
    || is_identifier c true
    || c == '[' || c == '(' || c == ']' || c == ')'
    || isdecimal c
    || c == '"'
    || c == '^' || c == '-' || c == '+' || c == '/' || c == '*'
    || c == ':' || c == ',' || c == '%' || c == '.' || c == ';'
    || c == '=' || c == '>' || c == '<'

/-- The precedence of a kind, for operator kinds. -/
def operatorPrecedence (kind : TokenKind) : Option Nat :=
  match kind.value with
  | .Operator _ _ _ precedence => some precedence
  | _ => none

/-- The associativity of a kind, for operator kinds. -/
def operatorAssociativity (kind : TokenKind) : Option Associativity :=
  match kind.value with
  | .Operator _ _ associativity _ => some associativity
  | _ => none

theorem peek_at_end (src : List Char) (cur : Nat) (h : src.length ≤ cur) :
    peek src cur = '\x00' := by
  simp [peek, is_at_end, h]

theorem peek_of_lt (src : List Char) (cur : Nat) (h : cur < src.length) :
    peek src cur = src.getD cur '\x00' := by
  simp [peek, is_at_end, Nat.not_le.2 h]

theorem lt_of_peek_ne_nul (src : List Char) (cur : Nat) (h : peek src cur ≠ '\x00') :
    cur < src.length := by
  by_contra hle
  exact h (peek_at_end src cur (by omega))

theorem scan_identifier_le (src : List Char) (start : Nat) :
    ∀ fuel cur, cur ≤ (scan_identifier src start fuel cur).2 := by
  intro fuel
  induction fuel with
  | zero => intro cur; simp [scan_identifier]
  | succ fuel ih =>
    intro cur
    rw [scan_identifier]
    split
    · exact Nat.le_trans (by omega) (ih (cur + 1))
    · simp

theorem scan_natural_le (src : List Char) :
    ∀ fuel cur, cur ≤ (scan_natural src fuel cur).2 := by
  intro fuel
  induction fuel with
  | zero => intro cur; simp [scan_natural]
  | succ fuel ih =>
    intro cur
    rw [scan_natural]
    split
    · exact Nat.le_trans (by omega) (ih (cur + 1))
    · simp

theorem scan_string_le (src : List Char) (start : Nat) :
    ∀ fuel cur, cur ≤ (scan_string src start fuel cur).2 := by
  intro fuel
  induction fuel with
  | zero => intro cur; simp [scan_string]
  | succ fuel ih =>
    intro cur
    rw [scan_string]
    split
    · exact Nat.le_trans (by omega) (ih (cur + 1))
    · split <;> simp

theorem scan_token_relations_bounds (src : List Char) (start cur : Nat) (c : Char)
    (r : Result TokenKind SynError) (s' c' : Nat)
    (heq : scan_token_relations src start cur c = (r, s', c')) :
    s' = start ∧ cur ≤ c' := by
  unfold scan_token_relations at heq
  repeat' split at heq
  all_goals simp only [Prod.mk.injEq] at heq
  all_goals obtain ⟨-, hs, hc⟩ := heq
  all_goals omega

theorem scan_token_punctuation_bounds (src : List Char) (start cur : Nat) (c : Char)
    (r : Result TokenKind SynError) (s' c' : Nat)
    (heq : scan_token_punctuation src start cur c = (r, s', c')) :
    s' = start ∧ cur ≤ c' := by
  unfold scan_token_punctuation at heq
  repeat' split at heq
  all_goals first
    | (simp only [Prod.mk.injEq] at heq; obtain ⟨-, hs, hc⟩ := heq; omega)
    | exact scan_token_relations_bounds src start cur c r s' c' heq

theorem scan_token_operators_bounds (src : List Char) (start cur : Nat) (c : Char)
    (r : Result TokenKind SynError) (s' c' : Nat)
    (heq : scan_token_operators src start cur c = (r, s', c')) :
    s' = start ∧ cur ≤ c' := by
  unfold scan_token_operators at heq
  repeat' split at heq
  all_goals first
    | (simp only [Prod.mk.injEq] at heq; obtain ⟨-, hs, hc⟩ := heq; omega)
    | exact scan_token_punctuation_bounds src start cur c r s' c' heq

theorem scan_token_literals_bounds (src : List Char) (fuel start cur : Nat) (c : Char)
    (r : Result TokenKind SynError) (s' c' : Nat)
    (heq : scan_token_literals src fuel start cur c = (r, s', c')) :
    s' = start ∧ cur ≤ c' := by
  simp only [scan_token_literals] at heq
  repeat' split at heq
  all_goals first
    | (simp only [Prod.mk.injEq] at heq
       obtain ⟨-, hs, hc⟩ := heq
       first
         | (have hnle := scan_natural_le src fuel cur; omega)
         | omega)
    | (rename_i hstring
       simp only [Prod.mk.injEq] at heq
       obtain ⟨-, hs, hc⟩ := heq
       have := scan_string_le src start fuel cur
       rw [hstring] at this; dsimp only at this; omega)
    | exact scan_token_operators_bounds src start cur c r s' c' heq

theorem scan_token_groupers_bounds (src : List Char) (fuel start cur : Nat) (c : Char)
    (r : Result TokenKind SynError) (s' c' : Nat)
    (heq : scan_token_groupers src fuel start cur c = (r, s', c')) :
    s' = start ∧ cur ≤ c' := by
  unfold scan_token_groupers at heq
  repeat' split at heq
  all_goals first
    | (simp only [Prod.mk.injEq] at heq; obtain ⟨-, hs, hc⟩ := heq; omega)
    | exact scan_token_literals_bounds src fuel start cur c r s' c' heq

theorem scan_token_bounds (src : List Char) :
    ∀ fuel start cur r s' c', start ≤ cur → cur ≤ src.length →
      src.length + 1 ≤ fuel + cur →
      scan_token src fuel start cur = (r, s', c') →
      cur < c' ∧ start ≤ s' ∧ s' ≤ c' ∧ s' ≤ src.length := by
  intro fuel
  induction fuel with
  | zero => intro start cur r s' c' h0 h1 h2 heq; omega
  | succ fuel ih =>
    intro start cur r s' c' h0 h1 h2 heq
    simp only [scan_token] at heq
    repeat' split at heq
    all_goals first
      | (simp only [Prod.mk.injEq] at heq
         obtain ⟨-, hs, hc⟩ := heq
         first
           | (have hile := scan_identifier_le src start fuel (cur + 1); omega)
           | omega)
      | (rename_i hnul hws
         have hlt : cur < src.length := by
           refine lt_of_peek_ne_nul src cur fun hn => ?_
           rw [hn] at hws; simp at hws
         have := ih (cur + 1) (cur + 1) r s' c' (Nat.le_refl _) (by omega) (by omega) heq
         omega)
      | (have hgb := scan_token_groupers_bounds src fuel start (cur + 1) (peek src cur) r s' c' heq
         omega)

theorem scan_identifier_munch_all (src : List Char) (start : Nat) :
    ∀ fuel cur, cur ≤ src.length → src.length ≤ fuel + cur →
      (∀ i, cur ≤ i → i < src.length → is_identifier (src.getD i '\x00') = true) →
      scan_identifier src start fuel cur =
        (KEYWORD_MAPPING_get (get_lexeme src start src.length), src.length) := by
  intro fuel
  induction fuel with
  | zero =>
    intro cur h1 h2 h3
    have hc : cur = src.length := by omega
    subst hc
    simp [scan_identifier]
  | succ fuel ih =>
    intro cur h1 h2 h3
    rw [scan_identifier]
    by_cases hc : cur < src.length
    · have hcond : is_identifier (peek src cur) = true := by
        rw [peek_of_lt src cur hc]
        exact h3 cur (Nat.le_refl _) hc
      rw [if_pos hcond]
      exact ih (cur + 1) (by omega) (by omega) fun i hi hlen => h3 i (by omega) hlen
    · have hc' : cur = src.length := by omega
      rw [if_neg (by rw [hc', peek_at_end src src.length (Nat.le_refl _)]; decide), hc']

theorem scan_string_unclosed_aux (src : List Char) (start : Nat) :
    ∀ fuel cur stop, cur ≤ stop → stop ≤ src.length → src.length + 1 ≤ fuel + cur →
      (∀ i, cur ≤ i → i < stop →
        STRING_TERMINATORS.contains (src.getD i '\x00') = false) →
      (stop = src.length ∨ (stop < src.length ∧ src.getD stop '\x00' = '\n')) →
      scan_string src start fuel cur = (.Err (.UnclosedStringError (start, stop)), stop) := by
  intro fuel
  induction fuel with
  | zero => intro cur stop h1 h2 h3 hmid hstop; omega
  | succ fuel ih =>
    intro cur stop h1 h2 h3 hmid hstop
    rw [scan_string]
    by_cases hc : cur < stop
    · have hend : is_at_end src cur = false := by
        simp only [is_at_end, decide_eq_false_iff_not]; omega
      have hpk : peek src cur = src.getD cur '\x00' := peek_of_lt src cur (by omega)
      rw [if_pos (by
        rw [hend, hpk, hmid cur (Nat.le_refl _) hc]; rfl)]
      exact ih (cur + 1) stop (by omega) h2 (by omega)
        (fun i hi hlt => hmid i (by omega) hlt) hstop
    · have hc' : cur = stop := by omega
      subst hc'
      rcases hstop with hstop | ⟨hlt, hnl⟩
      · have hend : is_at_end src cur = true := by
          simp only [is_at_end, decide_eq_true_eq]; omega
        rw [if_neg (by simp [hend])]
        rw [if_pos (by simp [hend])]
        rfl
      · have hend : is_at_end src cur = false := by
          simp only [is_at_end, decide_eq_false_iff_not]; omega
        have hpk : peek src cur = '\n' := by rw [peek_of_lt src cur hlt, hnl]
        rw [if_neg (by simp [hend, hpk, STRING_TERMINATORS])]
        rw [if_pos (by simp [hpk])]
        rfl

theorem lexLoop_tokens_good (src : List Char) :
    ∀ fuel cur acc ts,
      (∀ t ∈ acc, (src.drop t.offset).take t.lexeme.length = t.lexeme) →
      (∀ t ∈ acc, t.offset + t.lexeme.length ≤ cur) →
      acc.Pairwise (fun a b => a.offset + a.lexeme.length ≤ b.offset ∧ a.offset ≤ b.offset) →
      lexLoop src fuel cur acc = .Ok ts →
      (∀ t ∈ ts, (src.drop t.offset).take t.lexeme.length = t.lexeme) ∧
      ts.Pairwise (fun a b => a.offset + a.lexeme.length ≤ b.offset ∧ a.offset ≤ b.offset) := by
  intro fuel
  induction fuel with
  | zero =>
    intro cur acc ts h1 h2 h3 heq
    injection heq with heq
    subst heq
    exact ⟨h1, h3⟩
  | succ fuel ih =>
    intro cur acc ts h1 h2 h3 heq
    rw [lexLoop] at heq
    split at heq
    · injection heq with heq
      subst heq
      have htok : build_token src cur cur .EOF = ⟨.EOF, [], cur⟩ := by
        simp [build_token, get_lexeme]
      rw [htok] at *
      refine ⟨?_, ?_⟩
      · intro t ht
        rcases List.mem_append.1 ht with ht | ht
        · exact h1 t ht
        · simp at ht; subst ht; simp
      · refine List.pairwise_append.2 ⟨h3, List.pairwise_singleton _ _, ?_⟩
        intro a ha b hb
        simp at hb; subst hb
        have := h2 a ha
        show a.offset + a.lexeme.length ≤ cur ∧ a.offset ≤ cur
        omega
    · rename_i hend
      split at heq
      · exact (Result.noConfusion heq)
      · rename_i kind s' c' hscan
        have hcur : cur < src.length := by
          simp only [is_at_end, decide_eq_true_eq] at hend; omega
        obtain ⟨hb1, hb2, hb3, hb4⟩ :=
          scan_token_bounds src (src.length + 1) cur cur (.Ok kind) s' c'
            (Nat.le_refl _) (by omega) (by omega) hscan
        have hlexeme : (build_token src s' c' kind).lexeme = (src.drop s').take (c' - s') := rfl
        have hlen : ((src.drop s').take (c' - s')).length = min (c' - s') (src.length - s') := by
          simp [List.length_take, List.length_drop]
        refine ih c' (acc ++ [build_token src s' c' kind]) ts ?_ ?_ ?_ heq
        · intro t ht
          rcases List.mem_append.1 ht with ht | ht
          · exact h1 t ht
          · simp at ht; subst ht
            show (src.drop s').take ((src.drop s').take (c' - s')).length =
              (src.drop s').take (c' - s')
            refine List.take_eq_take.2 ?_
            simp only [List.length_take, List.length_drop]
            omega
        · intro t ht
          rcases List.mem_append.1 ht with ht | ht
          · exact Nat.le_trans (h2 t ht) (by omega)
          · simp at ht; subst ht
            show s' + ((src.drop s').take (c' - s')).length ≤ c'
            rw [hlen]; omega
        · refine List.pairwise_append.2 ⟨h3, List.pairwise_singleton _ _, ?_⟩
          intro a ha b hb
          simp at hb; subst hb
          have := h2 a ha
          show a.offset + a.lexeme.length ≤ s' ∧ a.offset ≤ s'
          omega

theorem lexLoop_err_sound (src : List Char) :
    ∀ fuel cur acc e, lexLoop src fuel cur acc = .Err e →
      ∃ cur'', ScanReaches src cur cur'' ∧ is_at_end src cur'' = false ∧
        (scan_token src (src.length + 1) cur'' cur'').1 = .Err e := by
  intro fuel
  induction fuel with
  | zero => intro cur acc e heq; exact (Result.noConfusion heq)
  | succ fuel ih =>
    intro cur acc e heq
    rw [lexLoop] at heq
    split at heq
    · exact (Result.noConfusion heq)
    · rename_i hend
      have hend' : is_at_end src cur = false := by simpa using hend
      split at heq
      · rename_i e' s' c' hscan
        injection heq with heq
        subst heq
        exact ⟨cur, .refl cur, hend', by rw [hscan]⟩
      · rename_i kind s' c' hscan
        obtain ⟨cur'', hreach, hend'', herr⟩ := ih c' (acc ++ [build_token src s' c' kind]) e heq
        exact ⟨cur'', .step cur cur'' kind s' c' hend' hscan hreach, hend'', herr⟩

theorem lexLoop_err_complete (src : List Char) :
    ∀ cur cur'', ScanReaches src cur cur'' →
      is_at_end src cur'' = false →
      ∀ e, (scan_token src (src.length + 1) cur'' cur'').1 = .Err e →
      ∀ fuel acc, src.length + 1 ≤ fuel + cur → lexLoop src fuel cur acc = .Err e := by
  intro cur cur'' hreach
  induction hreach with
  | refl cur =>
    intro hend e herr fuel acc hf
    have hlt : cur < src.length := by
      simp only [is_at_end, decide_eq_false_iff_not] at hend; omega
    obtain ⟨f, rfl⟩ : ∃ f, fuel = f + 1 := ⟨fuel - 1, by omega⟩
    rw [lexLoop, if_neg (by simp [hend])]
    rcases hsc : scan_token src (src.length + 1) cur cur with ⟨r, s', c'⟩
    rw [hsc] at herr
    dsimp only at herr
    subst herr
    rfl
  | step cur cur'' kind s' cur' hne hscan htail ih =>
    intro hend e herr fuel acc hf
    have hlt : cur < src.length := by
      simp only [is_at_end, decide_eq_false_iff_not] at hne; omega
    obtain ⟨hb1, hb2, hb3, hb4⟩ :=
      scan_token_bounds src (src.length + 1) cur cur (.Ok kind) s' cur'
        (Nat.le_refl _) (by omega) (by omega) hscan
    obtain ⟨f, rfl⟩ : ∃ f, fuel = f + 1 := ⟨fuel - 1, by omega⟩
    rw [lexLoop, if_neg (by simp [hne]), hscan]
    exact ih hend e herr f (acc ++ [build_token src s' cur' kind]) (by omega)

/-- C1: the claim says a successful `lex` yields exactly one token of the
end-of-input kind, last in the sequence, with empty lexeme and offset
equal to the source length.  The code violates this: on the one-character
source `" "` (trailing whitespace), `scan_token`'s whitespace loop runs
into the end of input and returns the `EOF` kind to the `lex` loop, which
builds a token from it and then appends its own terminal `EOF` token —
two EOF-kind tokens, the last with offset `2` on a source of length `1`. -/
theorem lex_trailing_whitespace_double_eof :
    lex [' '] = .Ok [⟨.EOF, [], 1⟩, ⟨.EOF, [], 2⟩] ∧
    ([(⟨.EOF, [], 1⟩ : Token), ⟨.EOF, [], 2⟩].countP fun t => t.kind == .EOF) = 2 ∧
    ([' '] : List Char).length = 1 := by
  refine ⟨by decide, by decide, by decide⟩

/-- C2's statement, taken literally, is refuted by the NUL character:
`'\x00'` belongs to none of the character classes the dispatch
recognizes, yet consuming it yields the `EOF` kind (the scanner conflates
it with its end-of-input sentinel), and `lex "\x00"` succeeds instead of
failing with `UnrecognizedCharacterError`. -/
theorem lex_nul_not_unrecognized :
    dispatch_recognizes '\x00' = false ∧
    scan_token ['\x00'] 2 0 0 = (.Ok .EOF, 0, 1) ∧
    lex ['\x00'] = .Ok [⟨.EOF, ['\x00'], 0⟩, ⟨.EOF, [], 1⟩] := by
  refine ⟨by decide, by decide, by decide⟩

/-- C2 (amended to exclude the NUL character, which the scanner treats as
its end-of-input sentinel): every consumed character outside the
language's lexical grammar — not whitespace, not an identifier-start
character, grouper, decimal digit, double quote, or one of the listed
operator, punctuation, or relation characters — makes `scan_token` fail
with an `UnrecognizedCharacterError` carrying that single character and
its span; in particular `lex "@"` fails carrying `'@'` with span
`(0, 1)`. -/
theorem scan_token_unrecognized_character :
    (∀ (src : List Char) (cur fuel : Nat) (c : Char),
      cur < src.length → src.getD cur '\x00' = c → c ≠ '\x00' →
      dispatch_recognizes c = false →
      scan_token src (fuel + 1) cur cur =
        (.Err (.UnrecognizedCharacterError (cur, cur + 1) c), cur, cur + 1)) ∧
    lex ['@'] = .Err (.UnrecognizedCharacterError (0, 1) '@') := by
  refine ⟨?_, by decide⟩
  intro src cur fuel c hlt hget hnul hrec
  have hpk : peek src cur = c := by rw [peek_of_lt src cur hlt, hget]
  have hcne : (c == '\x00') = false := beq_eq_false_iff_ne.mpr hnul
  simp only [dispatch_recognizes, Bool.or_eq_false_iff] at hrec
  obtain ⟨hrec, hLT⟩ := hrec
  obtain ⟨hrec, hGT⟩ := hrec
  obtain ⟨hrec, hEQ⟩ := hrec
  obtain ⟨hrec, hSC⟩ := hrec
  obtain ⟨hrec, hPD⟩ := hrec
  obtain ⟨hrec, hPC⟩ := hrec
  obtain ⟨hrec, hCM⟩ := hrec
  obtain ⟨hrec, hCL⟩ := hrec
  obtain ⟨hrec, hST⟩ := hrec
  obtain ⟨hrec, hSL⟩ := hrec
  obtain ⟨hrec, hPL⟩ := hrec
  obtain ⟨hrec, hMN⟩ := hrec
  obtain ⟨hrec, hCR⟩ := hrec
  obtain ⟨hrec, hQU⟩ := hrec
  obtain ⟨hrec, hDC⟩ := hrec
  obtain ⟨hrec, hRP⟩ := hrec
  obtain ⟨hrec, hRB⟩ := hrec
  obtain ⟨hrec, hLP⟩ := hrec
  obtain ⟨hrec, hLB⟩ := hrec
  obtain ⟨hws, hID⟩ := hrec
  obtain ⟨⟨⟨hw1, hw2⟩, hw3⟩, hw4⟩ := hws
  simp only [scan_token, hpk]
  simp [scan_token_groupers, scan_token_literals, scan_token_operators,
    scan_token_punctuation, scan_token_relations, get_span,
    hcne, hw1, hw2, hw3, hw4, hID, hLB, hLP, hRB, hRP, hDC, hQU, hCR, hMN,
    hPL, hSL, hST, hCL, hCM, hPC, hPD, hSC, hEQ, hGT, hLT]

/-- C4: for every source on which `lex` succeeds, each token's lexeme is
the exact source substring at its offset, and across the sequence the
spans are non-overlapping with non-decreasing start offsets. -/
theorem lex_token_spans_faithful (src : List Char) (ts : List Token)
    (h : lex src = .Ok ts) :
    (∀ t ∈ ts, (src.drop t.offset).take t.lexeme.length = t.lexeme) ∧
    ts.Pairwise (fun a b => a.offset + a.lexeme.length ≤ b.offset ∧ a.offset ≤ b.offset) :=
  lexLoop_tokens_good src (src.length + 1) 0 [] ts (by simp) (by simp) List.Pairwise.nil h

theorem lex_token_spans_faithful_witness :
    (∀ t ∈ [(⟨.IDENTIFIER, ['a'], 0⟩ : Token), ⟨.EOF, [], 1⟩],
      (['a'].drop t.offset).take t.lexeme.length = t.lexeme) ∧
    List.Pairwise (fun a b => a.offset + a.lexeme.length ≤ b.offset ∧ a.offset ≤ b.offset)
      [(⟨.IDENTIFIER, ['a'], 0⟩ : Token), ⟨.EOF, [], 1⟩] :=
  lex_token_spans_faithful ['a'] [⟨.IDENTIFIER, ['a'], 0⟩, ⟨.EOF, [], 1⟩] (by decide)

/-- C5: `lex` returns an error exactly when the deterministic sequence of
`scan_token` calls it makes (characterized by `ScanReaches`) hits a
cursor position, before the end of input, at which `scan_token` fails —
and then it returns that first error value unchanged; the `Result` value
carries no token list in that case. -/
theorem lex_error_iff_first_scan_error (src : List Char) (e : SynError) :
    lex src = .Err e ↔
      ∃ cur, ScanReaches src 0 cur ∧ is_at_end src cur = false ∧
        (scan_token src (src.length + 1) cur cur).1 = .Err e :=
  ⟨fun h => lexLoop_err_sound src (src.length + 1) 0 [] e h,
   fun ⟨cur, hr, hend, herr⟩ =>
     lexLoop_err_complete src 0 cur hr hend e herr (src.length + 1) [] (by omega)⟩

theorem lex_error_iff_first_scan_error_witness :
    ∃ cur, ScanReaches ['@'] 0 cur ∧ is_at_end ['@'] cur = false ∧
      (scan_token ['@'] (['@'].length + 1) cur cur).1 =
        .Err (.UnrecognizedCharacterError (0, 1) '@') :=
  (lex_error_iff_first_scan_error ['@'] (.UnrecognizedCharacterError (0, 1) '@')).mp
    (by decide)

/-- C8: `lex "let x := 3;"` succeeds with exactly six tokens of kinds
`[LET, IDENTIFIER, COLON_EQUAL, NATURAL, SEMICOLON, EOF]` and lexemes
`["let", "x", ":=", "3", ";", ""]`, in that order. -/
theorem lex_let_binding_example :
    lex "let x := 3;".toList =
      .Ok [⟨.LET, "let".toList, 0⟩, ⟨.IDENTIFIER, "x".toList, 4⟩,
           ⟨.COLON_EQUAL, ":=".toList, 6⟩, ⟨.NATURAL, "3".toList, 9⟩,
           ⟨.SEMICOLON, ";".toList, 10⟩, ⟨.EOF, "".toList, 11⟩] := by
  decide

/-- C9: in the operator taxonomy, precedence 0 belongs exclusively to the
assignment operator `:=`, every other operator kind has precedence at
least 1, `^` is right-associative with precedence 5, `/`, `*` and `mod`
have precedence 4, and `+` and `-` have precedence 3. -/
theorem operator_precedence_taxonomy :
    (∀ k : TokenKind, operatorPrecedence k = some 0 → k = .COLON_EQUAL) ∧
    operatorPrecedence .COLON_EQUAL = some 0 ∧
    (∀ (k : TokenKind) (p : Nat), k ≠ .COLON_EQUAL → operatorPrecedence k = some p → 1 ≤ p) ∧
    operatorAssociativity .CARET = some .RIGHT ∧
    operatorPrecedence .CARET = some 5 ∧
    operatorPrecedence .SLASH = some 4 ∧
    operatorPrecedence .STAR = some 4 ∧
    operatorPrecedence .MODULO = some 4 ∧
    operatorPrecedence .PLUS = some 3 ∧
    operatorPrecedence .MINUS = some 3 := by
  refine ⟨?_, by decide, ?_, by decide, by decide, by decide, by decide,
    by decide, by decide, by decide⟩
  · intro k h
    cases k <;> simp_all [operatorPrecedence, TokenKind.value]
  · intro k p hne h
    cases k <;> simp_all [operatorPrecedence, TokenKind.value] <;> omega

theorem operator_precedence_taxonomy_witness :
    TokenKind.COLON_EQUAL = TokenKind.COLON_EQUAL ∧ (1 : Nat) ≤ 4 :=
  ⟨operator_precedence_taxonomy.1 .COLON_EQUAL (by decide),
   operator_precedence_taxonomy.2.2.1 .SLASH 4 (by decide) (by decide)⟩

theorem scan_token_unrecognized_character_witness :
    scan_token ['@'] 1 0 0 =
      (.Err (.UnrecognizedCharacterError (0, 1) '@'), 0, 1) :=
  scan_token_unrecognized_character.1 ['@'] 0 0 '@'
    (by decide) (by decide) (by decide) (by decide)

/-- C3: after the identifier sub-scan's maximal munch, the lexeme is
looked up in the identifier-alike table.  For every entry of the table
(the fourteen keywords plus the word-shaped operator `mod` and relation
`is`), lexing that exact text in isolation yields the corresponding kind;
every other valid identifier text (identifier-start first character,
identifier characters after it) yields the plain `IDENTIFIER` kind. -/
theorem identifier_alike_scan_classification :
    (∀ p ∈ IDENTIFIER_ALIKE_MAPPING,
      lex p.1.toList = .Ok [⟨p.2, p.1.toList, 0⟩, ⟨.EOF, [], p.1.toList.length⟩]) ∧
    (∀ (c : Char) (cs : List Char),
      is_identifier c true = true →
      (∀ x ∈ cs, is_identifier x = true) →
      (∀ p ∈ IDENTIFIER_ALIKE_MAPPING, p.1.toList ≠ c :: cs) →
      lex (c :: cs) = .Ok [⟨.IDENTIFIER, c :: cs, 0⟩, ⟨.EOF, [], (c :: cs).length⟩]) := by
  refine ⟨by decide, ?_⟩
  intro c cs hfirst hrest hmiss
  have hne : ∀ d : Char, is_identifier d true = false → (c == d) = false := by
    intro d hd
    cases hx : c == d with
    | false => rfl
    | true =>
      have hcd : c = d := by simpa using hx
      rw [hcd, hd] at hfirst
      exact absurd hfirst (by simp)
  have hmunch :=
    scan_identifier_munch_all (c :: cs) 0 (c :: cs).length 1
      (by simp) (by simp)
      (by
        intro i h1i h2i
        obtain ⟨j, rfl⟩ : ∃ j, i = j + 1 := ⟨i - 1, by omega⟩
        have hj : j < cs.length := by
          simp only [List.length_cons] at h2i; omega
        rw [List.getD_cons_succ, List.getD_eq_getElem cs '\x00' hj]
        exact hrest _ (List.getElem_mem hj))
  have hlexeme : get_lexeme (c :: cs) 0 (c :: cs).length = c :: cs := by
    simp [get_lexeme]
  have hget : KEYWORD_MAPPING_get (c :: cs) = .IDENTIFIER := by
    have hfind : KEYWORD_MAPPING.find? (fun p => p.1.toList == c :: cs) = none :=
      List.find?_eq_none.mpr fun p hp => by simpa using hmiss p hp
    rw [KEYWORD_MAPPING_get, hfind]
  have hscan : scan_token (c :: cs) ((c :: cs).length + 1) 0 0 =
      (.Ok .IDENTIFIER, 0, (c :: cs).length) := by
    have hpk : peek (c :: cs) 0 = c := by simp [peek, is_at_end]
    simp only [scan_token, hpk, Nat.zero_add]
    rw [if_neg (by simp [hne '\x00' (by decide)])]
    rw [if_neg (by
      simp [hne ' ' (by decide), hne '\r' (by decide),
        hne '\t' (by decide), hne '\n' (by decide)])]
    rw [if_pos hfirst]
    rw [hmunch, hlexeme, hget]
  show lexLoop (c :: cs) ((c :: cs).length + 1) 0 [] = _
  rw [lexLoop]
  rw [if_neg (by simp [is_at_end])]
  rw [hscan]
  show lexLoop (c :: cs) (c :: cs).length (c :: cs).length
    ([] ++ [build_token (c :: cs) 0 (c :: cs).length .IDENTIFIER]) = _
  rw [show (c :: cs).length = cs.length + 1 from rfl]
  rw [lexLoop]
  rw [if_pos (by simp [is_at_end])]
  simp [build_token, get_lexeme, hlexeme]

theorem identifier_alike_scan_classification_witness :
    lex ['f', 'o', 'o'] = .Ok [⟨.IDENTIFIER, ['f', 'o', 'o'], 0⟩, ⟨.EOF, [], 3⟩] :=
  identifier_alike_scan_classification.2 'f' ['o', 'o']
    (by decide) (by decide) (by decide)

/-- C6: when the string sub-scanner (entered with the opening quote
already consumed, `start` at the quote) reaches a newline or the end of
input before a closing quote, it fails with an `UnclosedStringError`
spanning from the opening quote's offset to the position reached; in
particular `lex "\"abc"` fails with span `(0, 4)` (opening quote to end
of input), and `lex "\"abc\ndef\""` fails at the newline with span
`(0, 4)`, not at the second quote. -/
theorem scan_string_unclosed :
    (∀ (src : List Char) (start fuel cur stop : Nat),
      cur ≤ stop → stop ≤ src.length → src.length + 1 ≤ fuel + cur →
      (∀ i, cur ≤ i → i < stop →
        STRING_TERMINATORS.contains (src.getD i '\x00') = false) →
      (stop = src.length ∨ (stop < src.length ∧ src.getD stop '\x00' = '\n')) →
      scan_string src start fuel cur = (.Err (.UnclosedStringError (start, stop)), stop)) ∧
    lex "\"abc".toList = .Err (.UnclosedStringError (0, 4)) ∧
    lex "\"abc\ndef\"".toList = .Err (.UnclosedStringError (0, 4)) := by
  exact ⟨fun src start fuel cur stop => scan_string_unclosed_aux src start fuel cur stop,
    by decide, by decide⟩

theorem scan_string_unclosed_witness :
    scan_string ['"', 'a', 'b'] 0 4 1 = (.Err (.UnclosedStringError (0, 3)), 3) :=
  scan_string_unclosed.1 ['"', 'a', 'b'] 0 4 1 3 (by decide) (by decide) (by decide)
    (fun i h1 h2 => by interval_cases i <;> decide) (by decide)

/-- C7: after consuming `(`, `scan_token` peeks exactly one character —
if it is `)` it is consumed too and the pair forms a single `UNIT`
literal token, otherwise the token is `LEFT_PAREN`; hence `lex "()"`
yields exactly the two tokens `[UNIT, EOF]`. -/
theorem scan_token_left_paren_lookahead :
    (∀ (src : List Char) (cur fuel : Nat),
      cur < src.length → src.getD cur '\x00' = '(' →
      scan_token src (fuel + 1) cur cur =
        (if peek src (cur + 1) == ')' then (.Ok .UNIT, cur, cur + 2)
         else (.Ok .LEFT_PAREN, cur, cur + 1))) ∧
    lex ['(', ')'] = .Ok [⟨.UNIT, ['(', ')'], 0⟩, ⟨.EOF, [], 2⟩] := by
  refine ⟨?_, by decide⟩
  intro src cur fuel hlt hget
  have hpk : peek src cur = '(' := by rw [peek_of_lt src cur hlt, hget]
  simp only [scan_token, hpk]
  rw [if_neg (by decide)]
  rw [if_neg (by decide)]
  rw [if_neg (by decide)]
  rw [scan_token_groupers]
  rw [if_neg (by decide)]
  rw [if_pos (by decide)]

theorem scan_token_left_paren_lookahead_witness :
    scan_token ['(', 'x'] 1 0 0 = (.Ok .LEFT_PAREN, 0, 1) := by
  rw [scan_token_left_paren_lookahead.1 ['(', 'x'] 0 0 (by decide) (by decide)]
  decide

/-- C10: the natural-number scan classifies digits with Python's
`str.isdecimal`, which accepts every Unicode Nd character, not only
ASCII `0`-`9`: the Arabic-Indic digit `'٣'` (U+0663) is not ASCII yet
`lex "٣"` succeeds with a `NATURAL` token; identifier characters, by
contrast, are restricted to ASCII (underscore, ASCII letters, ASCII
digits), so every character accepted by `is_identifier` has a code point
below 128. -/
theorem scan_natural_unicode_decimal :
    isdecimal '٣' = true ∧
    127 < '٣'.toNat ∧
    lex ['٣'] = .Ok [⟨.NATURAL, ['٣'], 0⟩, ⟨.EOF, [], 1⟩] ∧
    (∀ (c : Char) (b : Bool), is_identifier c b = true → c.toNat < 128) := by
  refine ⟨by decide, by decide, by decide, ?_⟩
  intro c b h
  simp only [is_identifier, Bool.or_eq_true, Bool.and_eq_true,
    decide_eq_true_eq, beq_iff_eq] at h
  rcases h with ((hc | ⟨h1, h2⟩) | ⟨h1, h2⟩) | ⟨⟨h1, h2⟩, -⟩
  · subst hc; decide
  · have h2' : c.toNat ≤ 90 := h2
    omega
  · have h2' : c.toNat ≤ 122 := h2
    omega
  · have h2' : c.toNat ≤ 57 := h2
    omega

theorem scan_natural_unicode_decimal_witness :
    ('0' : Char).toNat < 128 :=
  scan_natural_unicode_decimal.2.2.2 '0' false (by decide)

end Venusc
